import Mathlib

/-!
Verification of the import-rewriting migration core (`src/utils/RewriteImports.ts`).

Script text is embedded as a list of characters, so that the character offsets
produced by the parser coincide with list indices and JavaScript's
`String.prototype.substring` becomes `take`/`drop`.  The path helpers imported
from `Terminal/DirectoryHelpers` are not part of the sources at hand, so they
are modelled from the specification (section 4.1); each such definition is
marked `Modelled from the spec:`.
-/

namespace RewriteImports

/-- Script source text as a list of characters; character offsets are list indices. -/
abbrev Code := List Char

/-- JS `s.startsWith(p)` on filenames, computed on the underlying character list. -/
def strStartsWith (s p : String) : Bool := p.data.isPrefixOf s.data

/-- JS `s.endsWith(p)` on filenames, computed on the underlying character list. -/
def strEndsWith (s p : String) : Bool := p.data.isSuffixOf s.data

/-- JS `s.substring(n)` on filenames. -/
def strDrop (s : String) (n : Nat) : String := String.mk (s.data.drop n)

/-- JS `s.substring(a, b)` for `a ≤ b`: the characters in `[a, b)`. -/
def substring (c : Code) (a b : Nat) : Code := (c.drop a).take (b - a)

/-- JS `s.substring(a)`: the characters from offset `a` on. -/
def substringFrom (c : Code) (a : Nat) : Code := c.drop a

/-- Split a character list at every occurrence of `sep`; never returns `[]`. -/
def splitOnChar (sep : Char) : List Char → List (List Char)
  | [] => [[]]
  | c :: cs =>
    match splitOnChar sep cs with
    | [] => [[c]]
    | l :: ls => if c = sep then [] :: l :: ls else (c :: l) :: ls

/-- Modelled from the spec: strip one leading separator (section 6: "paths may or may
not have a leading separator; the core must normalize consistently on both sides"). -/
def removeLeadingSlash (p : String) : String :=
  if strStartsWith p "/" then strDrop p 1 else p

/-- Modelled from the spec: `areFilesEqual` is `pathsEqualExact` (section 4.1) — two
fully-normalized paths are byte-identical, where normalization makes the leading
separator optional. -/
def areFilesEqual (f0 f1 : String) : Bool :=
  removeLeadingSlash f0 == removeLeadingSlash f1

/-- Modelled from the spec (section 4.1 edge case): an extensionless path is retried
with a `.js` suffix appended; `.js` and `.ns` are the script extensions recognised
by the batch driver. -/
def withScriptExt (p : String) : String :=
  if strEndsWith p ".js" || strEndsWith p ".ns" then p else p ++ ".js"

/-- Modelled from the spec: `areImportsEquals` is `pathsEqualUnderImportConvention`
(section 4.1) — equality of importable modules, extension-optional and insensitive
to the leading separator.  (The legacy `./` marker is already stripped by the
caller, `convert`, before this comparison.) -/
def areImportsEquals (f0 f1 : String) : Bool :=
  areFilesEqual (withScriptExt f0) (withScriptExt f1)

/-- Resolve `.` and `..` segments left to right; `none` when `..` climbs above the
root.  Empty segments (from doubled or leading separators) are dropped. -/
def normSegsAux : List (List Char) → List (List Char) → Option (List (List Char))
  | acc, [] => some acc.reverse
  | acc, seg :: rest =>
    if seg = [] ∨ seg = ['.'] then normSegsAux acc rest
    else if seg = ['.', '.'] then
      match acc with
      | [] => none
      | _ :: acc' => normSegsAux acc' rest
    else normSegsAux (seg :: acc) rest

/-- Join path segments with `/` separators. -/
def joinSegs : List (List Char) → List Char
  | [] => []
  | [s] => s
  | s :: s' :: rest => s ++ '/' :: joinSegs (s' :: rest)

/-- Try base directories in order; return the first whose combination with `path`
normalizes. -/
def firstValid : List String → String → Option String
  | [], _ => none
  | b :: bs, path =>
    match normSegsAux [] (splitOnChar '/' (b ++ path).data) with
    | some segs => some (String.mk (joinSegs segs))
    | none => firstValid bs path

/-- Modelled from the spec: `evaluateFilePath` is `normalize(path, baseDirectories?)`
(section 4.1) — resolve `.`/`..` segments, trying the base directory candidates in
order (most specific first); `none` when no candidate yields a valid path.  An
absolute path (leading separator) is normalized on its own and keeps its leading
separator; a relative path resolved against a base keeps none. -/
def evaluateFilePath (path : String) (bases : List String) : Option String :=
  if strStartsWith path "/" then
    (normSegsAux [] (splitOnChar '/' path.data)).map (fun segs => String.mk ('/' :: joinSegs segs))
  else
    match bases with
    | [] => (normSegsAux [] (splitOnChar '/' path.data)).map (fun segs => String.mk (joinSegs segs))
    | _ => firstValid bases path

/-- Join directory segments, appending a trailing separator to each. -/
def joinDirs : List (List Char) → List Char
  | [] => []
  | d :: ds => d ++ '/' :: joinDirs ds

/-- Modelled from the spec: the chain of ancestor directories of the importer's own
path, most specific first, ending with the root (section 4.3, strategy 2).  Each
directory carries a trailing separator and no leading one. -/
def getAllParentDirectories (path : String) : List String :=
  let dirs := (splitOnChar '/' (removeLeadingSlash path).data).dropLast
  ((List.range (dirs.length + 1)).reverse).map (fun k => String.mk (joinDirs (dirs.take k)))

/-- A script record as used by the rewriter: `filename`, source `code`, and the
hosting `server` (the `Script` constructor arguments used at line 125). -/
structure Script where
  filename : String
  code : Code
  server : String
  deriving DecidableEq, Repr

/-- One located import (RewriteImports.ts line 41): `filename` is the specifier
string (`node.source.value`); `start`/`stop` are the specifier's interior offsets
(`node.source.range[0] + 1` and `node.source.range[1] - 1`, excluding the quote
characters); `statementStart`/`statementEnd` are the whole declaration's range. -/
structure ImportNode where
  filename : String
  start : Nat
  stop : Nat
  statementStart : Nat
  statementEnd : Nat
  deriving DecidableEq, Repr

/-- The fixed warning line (RewriteImports.ts line 13). -/
def comment : String :=
  "// This import statement may be broken by a recent upgrade. Check the path to the script."

/-- A run of `n` equal-sign characters, as in the source's banner literals. -/
def eqRun (n : Nat) : String := String.mk (List.replicate n '=')

/-- The comment block spliced in before a rewritten statement (lines 73-79,
repeated verbatim at 92-98): a leading newline, the fixed opening banner line
(`// ` then 31 equal signs, ` original line `, 31 equal signs), the original
statement wrapped as a documentation comment, and the fixed closing banner line
(`// ` then 77 equal signs). -/
def bannerBlock (orig : Code) : Code :=
  ("\n" ++
   "// " ++ eqRun 31 ++ " original line " ++ eqRun 31 ++ "\n" ++
   "/**\n" ++
   " * ").data ++ orig ++
  ("\n" ++
   " */\n" ++
   "// " ++ eqRun 77 ++ "\n").data

/-- The shared rewrite action (lines 71-79; duplicated verbatim at lines 90-98 with a
different replacement specifier): replace the specifier range `[start, stop)` with
`newSpec`, then splice `bannerBlock` recording the pre-edit statement text in front
of the statement. -/
def applyRewrite (tc : Code) (node : ImportNode) (newSpec : String) : Code :=
  let orig := substring tc node.statementStart node.statementEnd
  let t1 := substring tc 0 node.start ++ newSpec.data ++ substringFrom tc node.stop
  substring t1 0 node.statementStart ++ bannerBlock orig ++ substringFrom t1 node.statementStart

/-- Line 104, transcribed verbatim: both the part before and the part after the
inserted warning are `transformedCode.substring(0, node.statementStart)` — the text
from the statement onward is not reattached, and the prefix is emitted twice. -/
def unresolvedEdit (tc : Code) (node : ImportNode) : Code :=
  substring tc 0 node.statementStart ++ ("\n" ++ comment ++ "\n").data ++
    substring tc 0 node.statementStart

/-- Lines 57-59: strip the legacy `./` prefix from a specifier. -/
def stripDotSlash (f : String) : String :=
  if strStartsWith f "./" then strDrop f 2 else f

/-- JS `a || b` on string-or-null values (lines 84-85): the empty string is falsy. -/
def jsOr (a b : Option String) : Option String :=
  match a with
  | some s => if s = "" then b else some s
  | none => b

/-- The body of the per-import loop (lines 54-105): strategy 1 (legacy root) first;
on a match, either the no-op check (line 67) or a root-relative rewrite; otherwise
strategy 2 (directory-relative with `.js` retry); otherwise the warning edit. -/
def processNode (scripts : List Script) (scriptDirectory : List String) (tc : Code)
    (node : ImportNode) : Code :=
  match scripts.filter (fun s => areImportsEquals s.filename (stripDotSlash node.filename)) with
  | matchingScript :: _ =>
    if evaluateFilePath ("/" ++ matchingScript.filename) [] = some node.filename then tc
    else applyRewrite tc node ("/" ++ matchingScript.filename)
  | [] =>
    match jsOr (evaluateFilePath node.filename scriptDirectory)
               (evaluateFilePath (node.filename ++ ".js") scriptDirectory) with
    | some filename =>
      match scripts.filter (fun s => areFilesEqual s.filename filename) with
      | matchingScript :: _ => applyRewrite tc node matchingScript.filename
      | [] => unresolvedEdit tc node
    | none => unresolvedEdit tc node

/-- Line 51: sort the nodes by specifier start offset, descending.  JS
`Array.prototype.sort` is stable; modelled as a stable insertion sort. -/
def insertByStartDesc (a : ImportNode) : List ImportNode → List ImportNode
  | [] => [a]
  | b :: bs => if b.start ≤ a.start then a :: b :: bs else b :: insertByStartDesc a bs

/-- Stable descending sort by `start` (line 51). -/
def sortByStartDesc : List ImportNode → List ImportNode
  | [] => []
  | a :: rest => insertByStartDesc a (sortByStartDesc rest)

/-- The pure conversion given the located imports (lines 49-107): fold the
per-import edit over the nodes in descending specifier-start order. -/
def convertCode (code : Code) (scripts : List Script) (scriptDirectory : List String)
    (importNodes : List ImportNode) : Code :=
  (sortByStartDesc importNodes).foldl (processNode scripts scriptDirectory) code

/-- Index of the first `"` character, if any. -/
def idxOfQuote : List Char → Option Nat
  | [] => none
  | c :: cs => if c = '"' then some 0 else (idxOfQuote cs).map (· + 1)

/-- Model of the acorn parse of one line (lines 33-43), for line-structured
scripts: a line starting with `import ` must be a whole import declaration
whose first quoted string is the module specifier and which ends with the
closing quote followed by `;`; any malformed import line is a syntax error (as
acorn's `SyntaxError`).  Any other line (plain statement, comment, blank)
contributes no node.  The statement range is the whole line; the specifier
range is the quote interior, as `node.source.range[0] + 1 .. range[1] - 1`. -/
def parseImportLine (off : Nat) (line : Code) : Except String (Option ImportNode) :=
  if ("import ").data.isPrefixOf line then
    match idxOfQuote line with
    | none => Except.error "SyntaxError: Unexpected token"
    | some i =>
      match idxOfQuote (line.drop (i + 1)) with
      | none => Except.error "SyntaxError: Unterminated string constant"
      | some d =>
        if i + d + 3 = line.length ∧ line.drop (i + d + 2) = [';'] then
          Except.ok (some
            ⟨String.mk (substring line (i + 1) (i + 1 + d)),
             off + i + 1, off + i + 1 + d, off, off + line.length⟩)
        else Except.error "SyntaxError: Unexpected token"
  else Except.ok none

/-- Pair each line with its start offset in the whole text. -/
def withOffsets : Nat → List (List Char) → List (Nat × List Char)
  | _, [] => []
  | off, l :: ls => (off, l) :: withOffsets (off + l.length + 1) ls

/-- The lines of a script together with their start offsets. -/
def linesWithOffsets (code : Code) : List (Nat × List Char) :=
  withOffsets 0 (splitOnChar '\n' code)

/-- Collect the import nodes of all lines in source order; the first syntax
error aborts the whole parse (section 4.2: no partial recovery). -/
def collectImports : List (Nat × List Char) → Except String (List ImportNode)
  | [] => Except.ok []
  | (off, l) :: rest =>
    match parseImportLine off l with
    | Except.error e => Except.error e
    | Except.ok none => collectImports rest
    | Except.ok (some n) => (collectImports rest).map (fun ns => n :: ns)

/-- Model of the acorn module parse and `walk.simple` traversal (lines 33-43),
restricted to line-structured scripts. -/
def parseImports (code : Code) : Except String (List ImportNode) :=
  collectImports (linesWithOffsets code)

/-- `convert` (lines 29-108): locate the imports, then fold the per-import edit
over the nodes in descending specifier-start order; a parse error is wrapped
with the message of line 46 and propagated. -/
def convert (script : Script) (scripts : List Script) : Except String Code :=
  match parseImports script.code with
  | Except.error err =>
    Except.error ("Error processing script for migration, parse error: " ++ err)
  | Except.ok importNodes =>
    Except.ok (convertCode script.code scripts (getAllParentDirectories script.filename) importNodes)

/-- A server: hostname and its scripts (the fields of `GetAllServers()` elements
used by `rewriteImports`). -/
structure Server where
  hostname : String
  scripts : List Script
  deriving DecidableEq, Repr

/-- The driver's filter (line 114): only `.js` and `.ns` scripts are converted. -/
def isTarget (s : Script) : Bool :=
  strEndsWith s.filename ".js" || strEndsWith s.filename ".ns"

/-- Backup filename computation (lines 121-124). -/
def backupFilename (fn : String) : String :=
  "/BACKUP" ++ (if strStartsWith fn "/" then fn else "/" ++ fn)

/-- JS string rendering of the thrown `Error` object: the template `${err}` at
line 130 prepends `Error: ` to the message built at line 46. -/
def errString (msg : String) : String := "Error: " ++ msg

/-- One step of the driver loop (lines 115-131), threading the report text and the
backup list: on success with a change, push a backup of the old code and append
the `Changed` entry (no trailing newline in the source); on failure, append the
`Failed to convert` entry; on no change, do nothing. -/
def stepScript (known : List Script) (hostname : String) (acc : String × List Script)
    (script : Script) : String × List Script :=
  match convert script known with
  | Except.ok code =>
    if script.code = code then acc
    else
      (acc.1 ++ "// Changed import statements in " ++ script.filename ++ " on " ++ hostname,
       acc.2 ++ [⟨backupFilename script.filename, script.code, script.server⟩])
  | Except.error err =>
    (acc.1 ++ "// Failed to convert " ++ script.filename ++ " on " ++ hostname ++
       ", reason: " ++ errString err ++ "\n",
     acc.2)

/-- The new state of one script record after the loop.  The source mutates
`script.code` in place (line 126) while iterating; this is modelled element-wise,
which is observationally identical because `convert` reads only the `filename`
fields of the known-script list, so mutating an earlier script's code never
changes a later script's conversion. -/
def updScript (known : List Script) (script : Script) : Script :=
  if isTarget script then
    match convert script known with
    | Except.ok code => { script with code := code }
    | Except.error _ => script
  else script

/-- The per-server body of `rewriteImports` (lines 112-133): run the loop over the
filtered scripts, then append the collected backups to the server's script list. -/
def rewriteImportsServer (server : Server) : Server × String :=
  let r := (server.scripts.filter isTarget).foldl (stepScript server.scripts server.hostname) ("", [])
  (⟨server.hostname, (server.scripts.map (updScript server.scripts)) ++ r.2⟩, r.1)

/-- `rewriteImports` (lines 110-139): fold over all servers, concatenating the
report text across servers. -/
def rewriteImports (servers : List Server) : List Server × String :=
  servers.foldl
    (fun acc server =>
      (acc.1 ++ [(rewriteImportsServer server).1], acc.2 ++ (rewriteImportsServer server).2))
    ([], "")

/-- Line 135-138: the consolidated report file is written only when the
accumulated text is nonempty. -/
def writesReport (servers : List Server) : Bool := (rewriteImports servers).2 != ""

/-- The report entry contributed by one target script, read off from `stepScript`:
empty for an unchanged script, the `Changed` line for a changed one, the
`Failed to convert` line for a parse failure. -/
def entryFor (known : List Script) (hostname : String) (script : Script) : String :=
  match convert script known with
  | Except.ok code =>
    if script.code = code then ""
    else "// Changed import statements in " ++ script.filename ++ " on " ++ hostname
  | Except.error err =>
    "// Failed to convert " ++ script.filename ++ " on " ++ hostname ++
      ", reason: " ++ errString err ++ "\n"

/-- Concatenation of a list of report entries. -/
def joinAll : List String → String
  | [] => ""
  | s :: rest => s ++ joinAll rest

/-! ## Concrete example scripts and records used by the witnesses -/

/-- A known root-level file named `helpers.js`. -/
def helpersFile : Script := ⟨"helpers.js", ("h();").data, "home"⟩

/-- A directory-relative candidate co-existing with the root-level `helpers.js`. -/
def nestedHelpersFile : Script := ⟨"scripts/helpers.js", ("h();").data, "home"⟩

/-- The known file matched by the directory-relative strategy in the examples. -/
def utilFile : Script := ⟨"scripts/util.js", ("u();").data, "home"⟩

/-- The import record of `import {f} from "./helpers.js";` at offset 0. -/
def helpersNode : ImportNode := ⟨"./helpers.js", 17, 29, 0, 31⟩

/-- The import record of `import {f} from "/helpers.js";` at offset 0. -/
def rootedHelpersNode : ImportNode := ⟨"/helpers.js", 17, 28, 0, 30⟩

/-- The import record of `import {u} from "util.js";` at offset 0. -/
def utilNode : ImportNode := ⟨"util.js", 17, 24, 0, 26⟩

/-- A script whose single import is resolved by the directory-relative strategy. -/
def dirMain : Script := ⟨"/scripts/main.js", ("import {u} from \"util.js\";").data, "home"⟩

/-- A script whose parse fails in the model: an import line with no quoted specifier. -/
def badScript : Script := ⟨"bad.js", ("import {x} from oops;").data, "home"⟩

/-- A valid sibling script in the same batch, converted without error. -/
def plainScript : Script := ⟨"a.js", ("foo();").data, "home"⟩

/-- The resolvable import used by the changed-script example. -/
def mainScript : Script := ⟨"main.js", ("import {f} from \"./x.js\";").data, "home"⟩

/-- The known root-level file the changed-script example resolves against. -/
def xFile : Script := ⟨"x.js", ("x();").data, "home"⟩

/-- A text file: not a target of the rewrite. -/
def noteFile : Script := ⟨"notes.txt", ("hello").data, "home"⟩

/-! ## Helper lemmas -/

lemma joinAll_append (l1 l2 : List String) :
    joinAll (l1 ++ l2) = joinAll l1 ++ joinAll l2 := by
  induction l1 with
  | nil => simp [joinAll]
  | cons s rest ih => simp [joinAll, ih, String.append_assoc]

lemma substring_zero (c : Code) (n : Nat) : substring c 0 n = c.take n := by
  simp [substring]

lemma take_append_take (tc X : Code) (ss st : Nat) (h1 : ss ≤ st) (h2 : st ≤ tc.length) :
    (tc.take st ++ X).take ss = tc.take ss := by
  rw [List.take_append_eq_append_take, List.length_take]
  have hz : ss - min st tc.length = 0 := by omega
  rw [hz, List.take_take]
  have hm : min ss st = ss := by omega
  simp [hm]

lemma drop_append_take (tc X : Code) (ss st : Nat) (h1 : ss ≤ st) (h2 : st ≤ tc.length) :
    (tc.take st ++ X).drop ss = substring tc ss st ++ X := by
  rw [List.drop_append_eq_append_drop, List.length_take]
  have hz : ss - min st tc.length = 0 := by omega
  rw [hz, List.drop_take]
  simp [substring]

lemma drop_split (tc : Code) (a b : Nat) (h : a ≤ b) :
    tc.drop a = substring tc a b ++ tc.drop b := by
  have hsplit := List.take_append_drop (b - a) (tc.drop a)
  have hd : (tc.drop a).drop (b - a) = tc.drop b := by
    rw [List.drop_drop]
    congr 1
    omega
  rw [hd] at hsplit
  rw [← hsplit]
  rfl

/-- Prepending `/` to any string yields a string that starts with `/`. -/
lemma strStartsWith_slash_append (f : String) : strStartsWith ("/" ++ f) "/" = true := by
  simp [strStartsWith, String.data_append, List.isPrefixOf]

lemma stepScript_fst (known : List Script) (h : String) (init : String × List Script)
    (s : Script) : (stepScript known h init s).1 = init.1 ++ entryFor known h s := by
  cases hc : convert s known with
  | ok code =>
    by_cases hcc : s.code = code
    · simp [stepScript, entryFor, hc, hcc]
    · simp [stepScript, entryFor, hc, hcc, String.append_assoc]
  | error e => simp [stepScript, entryFor, hc, String.append_assoc]

lemma foldl_stepScript (known : List Script) (h : String) (l : List Script) :
    ∀ init : String × List Script,
      (l.foldl (stepScript known h) init).1 = init.1 ++ joinAll (l.map (entryFor known h)) := by
  induction l with
  | nil => intro init; simp [joinAll]
  | cons s rest ih =>
    intro init
    simp only [List.foldl_cons, List.map_cons, joinAll]
    rw [ih, stepScript_fst, String.append_assoc]

/-! ## Claims -/

set_option maxRecDepth 4000 in
/-- C1: for a script text containing an import whose specifier matches no known
file under either strategy, the claim says `convert` inserts exactly one warning
comment line immediately before the untouched import statement and preserves all
other text.  The code does not: line 104 ends with
`transformedCode.substring(0, node.statementStart)` instead of
`transformedCode.substring(node.statementStart)`, so the output is the prefix,
the warning line, and the prefix again — the import statement itself and
everything after it are dropped.  This theorem evaluates `convert` at a concrete
failing input and shows the output differs from the claimed one. -/
theorem c1_unresolved_truncates_script :
    convert ⟨"main.js", ("foo();\nimport {f} from \"missing.js\";\nbar();").data, "home"⟩ [] =
      Except.ok (("foo();\n\n" ++ comment ++ "\nfoo();\n").data) ∧
    (("foo();\n\n" ++ comment ++ "\nfoo();\n").data : Code) ≠
      ("foo();\n\n" ++ comment ++ "\nimport {f} from \"missing.js\";\nbar();").data := by
  constructor
  · rfl
  · decide

set_option maxRecDepth 4000 in
/-- C4: the claim says the sorted-descending splice algorithm produces the same
final text as applying the substitutions one at a time on a re-parsed tree.
Because of the slip at line 104, an unresolved import destroys the text from its
statement onward and duplicates the prefix, so the equivalence fails: on a script
whose first import is resolvable and whose second is not, the code emits the
first import statement twice (once rewritten, once in its original form) and
drops the unresolved statement entirely, while one-at-a-time application on a
re-parsed tree would leave the unresolved statement intact after its warning.
This theorem evaluates `convert` at such an input and shows the divergence. -/
theorem c4_descending_splice_diverges :
    convert ⟨"main.js", ("import {a} from \"./x.js\";\nimport {b} from \"missing.js\";").data, "home"⟩
        [⟨"x.js", ("x();").data, "home"⟩] =
      Except.ok
        (bannerBlock ("import {a} from \"./x.js\";").data ++
         ("import {a} from \"/x.js\";\n\n" ++ comment ++ "\nimport {a} from \"./x.js\";\n").data) ∧
    (bannerBlock ("import {a} from \"./x.js\";").data ++
       ("import {a} from \"/x.js\";\n\n" ++ comment ++ "\nimport {a} from \"./x.js\";\n").data : Code) ≠
      bannerBlock ("import {a} from \"./x.js\";").data ++
        ("import {a} from \"/x.js\";\n\n" ++ comment ++ "\nimport {b} from \"missing.js\";").data := by
  constructor
  · rfl
  · decide

/-- C2: for every import record, resolution strategies are applied in strict
priority order.  If the legacy-root strategy finds a match (the filter over the
known files under import-convention equality, after stripping a leading `./`, is
nonempty), the result of processing the record does not depend on the importer's
directory chain at all — the directory-relative strategy is never attempted,
even when a directory-relative candidate exists — and, unless the no-op check
fires, the specifier is rewritten to `/` plus the matched script's filename. -/
theorem c2_root_strategy_wins (scripts : List Script) (dirs dirs' : List String)
    (tc : Code) (node : ImportNode) (m : Script) (rest : List Script)
    (hm : scripts.filter (fun s => areImportsEquals s.filename (stripDotSlash node.filename)) =
      m :: rest) :
    processNode scripts dirs tc node = processNode scripts dirs' tc node ∧
    (evaluateFilePath ("/" ++ m.filename) [] ≠ some node.filename →
      processNode scripts dirs tc node = applyRewrite tc node ("/" ++ m.filename)) := by
  constructor
  · unfold processNode
    rw [hm]
  · intro hne
    unfold processNode
    rw [hm]
    simp only [if_neg hne]

/-- Witness for C2: specifier `./helpers.js`, importer `/scripts/main.js`, known
files `helpers.js` (root) and `scripts/helpers.js` (a directory-relative
candidate): the root match wins and the rewrite target is `/helpers.js`. -/
theorem c2_root_strategy_wins_witness :
    ([helpersFile, nestedHelpersFile].filter
        (fun s => areImportsEquals s.filename (stripDotSlash helpersNode.filename)) =
      helpersFile :: []) ∧
    processNode [helpersFile, nestedHelpersFile] (getAllParentDirectories "/scripts/main.js")
        ("import {f} from \"./helpers.js\";").data helpersNode =
      processNode [helpersFile, nestedHelpersFile] []
        ("import {f} from \"./helpers.js\";").data helpersNode ∧
    processNode [helpersFile, nestedHelpersFile] (getAllParentDirectories "/scripts/main.js")
        ("import {f} from \"./helpers.js\";").data helpersNode =
      applyRewrite ("import {f} from \"./helpers.js\";").data helpersNode "/helpers.js" := by
  refine ⟨by decide, ?_, ?_⟩
  · exact (c2_root_strategy_wins [helpersFile, nestedHelpersFile]
      (getAllParentDirectories "/scripts/main.js") []
      ("import {f} from \"./helpers.js\";").data helpersNode helpersFile [] (by decide)).1
  · exact (c2_root_strategy_wins [helpersFile, nestedHelpersFile]
      (getAllParentDirectories "/scripts/main.js") []
      ("import {f} from \"./helpers.js\";").data helpersNode helpersFile [] (by decide)).2
      (by decide)

/-- C3: if the legacy-root strategy finds a match and the newly computed
root-relative specifier is textually identical to the original specifier,
`convert` performs no mutation at all for that record: the accumulated text is
returned unchanged (no replacement, no banner, no warning). -/
theorem c3_root_noop (scripts : List Script) (dirs : List String) (tc : Code)
    (node : ImportNode) (m : Script) (rest : List Script)
    (hm : scripts.filter (fun s => areImportsEquals s.filename (stripDotSlash node.filename)) =
      m :: rest)
    (heq : evaluateFilePath ("/" ++ m.filename) [] = some node.filename) :
    processNode scripts dirs tc node = tc := by
  unfold processNode
  rw [hm]
  simp only [if_pos heq]

/-- Witness for C3: the specifier is already `/helpers.js` and the known file is
`helpers.js`: the record is left untouched. -/
theorem c3_root_noop_witness :
    ([helpersFile].filter
        (fun s => areImportsEquals s.filename (stripDotSlash rootedHelpersNode.filename)) =
      helpersFile :: []) ∧
    evaluateFilePath ("/" ++ helpersFile.filename) [] = some rootedHelpersNode.filename ∧
    processNode [helpersFile] [] ("import {f} from \"/helpers.js\";").data rootedHelpersNode =
      ("import {f} from \"/helpers.js\";").data := by
  refine ⟨by decide, by decide, ?_⟩
  exact c3_root_noop [helpersFile] [] ("import {f} from \"/helpers.js\";").data
    rootedHelpersNode helpersFile [] (by decide) (by decide)

/-- C6: if the legacy-root strategy finds no match, the directory-relative
strategy normalizes the specifier against the importer's parent directory chain
(literal first, then with `.js` appended, the empty string being falsy as in the
source's `||`); when the normalized path equals a known file's filename, the
specifier is rewritten to that filename verbatim, with no leading slash added. -/
theorem c6_directory_fallback (scripts : List Script) (dirs : List String) (tc : Code)
    (node : ImportNode) (f : String) (m : Script) (rest : List Script)
    (h1 : scripts.filter (fun s => areImportsEquals s.filename (stripDotSlash node.filename)) = [])
    (h2 : jsOr (evaluateFilePath node.filename dirs)
      (evaluateFilePath (node.filename ++ ".js") dirs) = some f)
    (h3 : scripts.filter (fun s => areFilesEqual s.filename f) = m :: rest) :
    processNode scripts dirs tc node = applyRewrite tc node m.filename := by
  unfold processNode
  simp only [h1, h2, h3]

/-- Witness for C6, the spec's example: specifier `util.js`, importer
`/scripts/main.js`, known file `scripts/util.js`; the normalized path is
`scripts/util.js` and the rewritten specifier is exactly `scripts/util.js`. -/
theorem c6_directory_fallback_witness :
    ([utilFile].filter
        (fun s => areImportsEquals s.filename (stripDotSlash utilNode.filename)) = []) ∧
    jsOr (evaluateFilePath "util.js" (getAllParentDirectories "/scripts/main.js"))
        (evaluateFilePath ("util.js" ++ ".js") (getAllParentDirectories "/scripts/main.js")) =
      some "scripts/util.js" ∧
    processNode [utilFile] (getAllParentDirectories "/scripts/main.js")
        ("import {u} from \"util.js\";").data utilNode =
      applyRewrite ("import {u} from \"util.js\";").data utilNode "scripts/util.js" := by
  refine ⟨by decide, by decide, ?_⟩
  have h := c6_directory_fallback [utilFile] (getAllParentDirectories "/scripts/main.js")
    ("import {u} from \"util.js\";").data utilNode "scripts/util.js" utilFile []
    (by decide) (by decide) (by decide)
  exact h

/-- C7: for every rewritten import record (both strategies perform the identical
edit `applyRewrite`, source lines 71-79 and 90-98), the output decomposes as:
the untouched text before the statement, then the comment block (fixed opening
banner line, the verbatim pre-edit statement text wrapped as a documentation
comment, fixed closing banner line), then the statement with exactly the
specifier range replaced by the new specifier, then the untouched text after the
statement. -/
theorem c7_rewrite_banner_shape (tc : Code) (node : ImportNode) (newSpec : String)
    (h1 : node.statementStart ≤ node.start) (h2 : node.start ≤ node.stop)
    (h3 : node.stop ≤ node.statementEnd) (h4 : node.statementEnd ≤ tc.length) :
    applyRewrite tc node newSpec =
      tc.take node.statementStart ++
      bannerBlock (substring tc node.statementStart node.statementEnd) ++
      (substring tc node.statementStart node.start ++ newSpec.data ++
        substring tc node.stop node.statementEnd) ++
      tc.drop node.statementEnd := by
  have hstart : node.start ≤ tc.length := by omega
  simp only [applyRewrite, substringFrom, substring_zero]
  rw [List.append_assoc (List.take node.start tc) newSpec.data (List.drop node.stop tc)]
  rw [take_append_take tc (newSpec.data ++ List.drop node.stop tc)
    node.statementStart node.start h1 hstart]
  rw [drop_append_take tc (newSpec.data ++ List.drop node.stop tc)
    node.statementStart node.start h1 hstart]
  rw [drop_split tc node.stop node.statementEnd h3]
  simp [List.append_assoc]

/-- Witness for C7, the spec's end-to-end example: `import {f} from "./helpers.js";`
rewritten to `/helpers.js` carries the banner-wrapped original statement. -/
theorem c7_rewrite_banner_shape_witness :
    applyRewrite ("import {f} from \"./helpers.js\";").data helpersNode "/helpers.js" =
      (("import {f} from \"./helpers.js\";").data : Code).take 0 ++
      bannerBlock (substring ("import {f} from \"./helpers.js\";").data 0 31) ++
      (substring ("import {f} from \"./helpers.js\";").data 0 17 ++ ("/helpers.js").data ++
        substring ("import {f} from \"./helpers.js\";").data 29 31) ++
      (("import {f} from \"./helpers.js\";").data : Code).drop 31 := by
  exact c7_rewrite_banner_shape ("import {f} from \"./helpers.js\";").data helpersNode
    "/helpers.js" (by decide) (by decide) (by decide) (by decide)

set_option maxRecDepth 8000 in
/-- C5 counterexample: running `convert` twice is not the same as running it once.
With known file `scripts/util.js` and importer `/scripts/main.js`, the first run
rewrites the specifier `util.js` to `scripts/util.js` (directory-relative
strategy); on the second run that specifier now matches `scripts/util.js` at
root level under import-convention equality, the no-op check compares it against
`/scripts/util.js` and fails, so the import is rewritten again and a second
banner block is stacked. -/
theorem c5_counterexample :
    ((convert dirMain [utilFile]).toOption.bind
        (fun c => (convert ⟨dirMain.filename, c, dirMain.server⟩ [utilFile]).toOption)) ≠
      (convert dirMain [utilFile]).toOption := by
  decide

/-- C5 (amended): re-running the rewrite leaves a previously root-rewritten
record unchanged — its specifier is already `/` plus the first matching known
filename, so the no-op check fires — but a previously directory-rewritten import
is rewritten again by the legacy-root strategy: its specifier, a known filename
with no leading slash, now matches at root level and differs from the recomputed
root-relative form, so a second banner block is stacked.  Idempotence therefore
holds for root rewrites and no-ops but fails for directory rewrites. -/
theorem c5_second_run (scripts : List Script) (dirs : List String) (tc tc' : Code)
    (m : Script) (rest rest' : List Script) (node node' : ImportNode)
    (hroot : node.filename = "/" ++ m.filename)
    (hm : scripts.filter (fun s => areImportsEquals s.filename (stripDotSlash node.filename)) =
      m :: rest)
    (hnorm : evaluateFilePath ("/" ++ m.filename) [] = some ("/" ++ m.filename))
    (hdir : node'.filename = m.filename)
    (hm' : scripts.filter (fun s => areImportsEquals s.filename (stripDotSlash node'.filename)) =
      m :: rest')
    (hnoslash : strStartsWith m.filename "/" = false) :
    processNode scripts dirs tc node = tc ∧
    processNode scripts dirs tc' node' = applyRewrite tc' node' ("/" ++ m.filename) := by
  constructor
  · unfold processNode
    rw [hm]
    have heq : evaluateFilePath ("/" ++ m.filename) [] = some node.filename := by
      rw [hroot]
      exact hnorm
    simp only [if_pos heq]
  · unfold processNode
    rw [hm']
    have hne : evaluateFilePath ("/" ++ m.filename) [] ≠ some node'.filename := by
      rw [hnorm, hdir]
      intro h
      have h' : "/" ++ m.filename = m.filename := Option.some.inj h
      have := strStartsWith_slash_append m.filename
      rw [h'] at this
      rw [this] at hnoslash
      exact Bool.noConfusion hnoslash
    simp only [if_neg hne]

/-- Witness for the amended C5: known file `scripts/util.js`; the record produced
by a root rewrite (specifier `/scripts/util.js`) is a no-op on the second run,
while the record produced by a directory rewrite (specifier `scripts/util.js`)
is rewritten again to `/scripts/util.js` with a second banner. -/
theorem c5_second_run_witness :
    (ImportNode.mk "/scripts/util.js" 17 33 0 35).filename = "/" ++ utilFile.filename ∧
    ([utilFile].filter (fun s => areImportsEquals s.filename
        (stripDotSlash (ImportNode.mk "/scripts/util.js" 17 33 0 35).filename)) =
      utilFile :: []) ∧
    evaluateFilePath ("/" ++ utilFile.filename) [] = some ("/" ++ utilFile.filename) ∧
    (ImportNode.mk "scripts/util.js" 17 32 0 34).filename = utilFile.filename ∧
    ([utilFile].filter (fun s => areImportsEquals s.filename
        (stripDotSlash (ImportNode.mk "scripts/util.js" 17 32 0 34).filename)) =
      utilFile :: []) ∧
    strStartsWith utilFile.filename "/" = false ∧
    processNode [utilFile] [] ("import {u} from \"/scripts/util.js\";").data
        (ImportNode.mk "/scripts/util.js" 17 33 0 35) =
      ("import {u} from \"/scripts/util.js\";").data ∧
    processNode [utilFile] [] ("import {u} from \"scripts/util.js\";").data
        (ImportNode.mk "scripts/util.js" 17 32 0 34) =
      applyRewrite ("import {u} from \"scripts/util.js\";").data
        (ImportNode.mk "scripts/util.js" 17 32 0 34) ("/" ++ utilFile.filename) := by
  have h := c5_second_run [utilFile] []
    ("import {u} from \"/scripts/util.js\";").data
    ("import {u} from \"scripts/util.js\";").data
    utilFile [] [] (ImportNode.mk "/scripts/util.js" 17 33 0 35)
    (ImportNode.mk "scripts/util.js" 17 32 0 34)
    (by decide) (by decide) (by decide) (by decide) (by decide) (by decide)
  exact ⟨by decide, by decide, by decide, by decide, by decide, by decide, h.1, h.2⟩

/-- C8: a parse error while converting one script is caught and recorded as a
failure entry for that script only, carrying the underlying syntax error message
(rendered through the thrown `Error`); the scripts before it and after it in the
same batch still contribute their own report entries, and no error aborts the
fold over the batch. -/
theorem c8_parse_failure_isolated (server : Server) (xs ys : List Script) (b : Script)
    (e : String)
    (hsplit : server.scripts.filter isTarget = xs ++ b :: ys)
    (he : convert b server.scripts = Except.error e) :
    (rewriteImportsServer server).2 =
      joinAll (xs.map (entryFor server.scripts server.hostname)) ++
      ("// Failed to convert " ++ b.filename ++ " on " ++ server.hostname ++
        ", reason: " ++ errString e ++ "\n") ++
      joinAll (ys.map (entryFor server.scripts server.hostname)) := by
  unfold rewriteImportsServer
  simp only
  rw [hsplit, foldl_stepScript]
  rw [List.map_append, List.map_cons, joinAll_append]
  have hb : entryFor server.scripts server.hostname b =
      "// Failed to convert " ++ b.filename ++ " on " ++ server.hostname ++
        ", reason: " ++ errString e ++ "\n" := by
    simp [entryFor, he]
  simp [joinAll, hb, String.empty_append, String.append_assoc]

/-- Witness for C8: a batch with a syntactically invalid script followed by a
valid one: the report carries the failure entry for the bad script and the
sibling is still processed (here contributing an empty no-change entry). -/
theorem c8_parse_failure_isolated_witness :
    ((Server.mk "home" [badScript, plainScript]).scripts.filter isTarget =
      [] ++ badScript :: [plainScript]) ∧
    convert badScript (Server.mk "home" [badScript, plainScript]).scripts =
      Except.error
        ("Error processing script for migration, parse error: SyntaxError: Unexpected token") ∧
    (rewriteImportsServer (Server.mk "home" [badScript, plainScript])).2 =
      joinAll (([] : List Script).map
        (entryFor (Server.mk "home" [badScript, plainScript]).scripts "home")) ++
      ("// Failed to convert " ++ badScript.filename ++ " on " ++ "home" ++ ", reason: " ++
        errString "Error processing script for migration, parse error: SyntaxError: Unexpected token" ++
        "\n") ++
      joinAll ([plainScript].map
        (entryFor (Server.mk "home" [badScript, plainScript]).scripts "home")) := by
  refine ⟨by decide, by rfl, ?_⟩
  exact c8_parse_failure_isolated (Server.mk "home" [badScript, plainScript]) [] [plainScript]
    badScript
    "Error processing script for migration, parse error: SyntaxError: Unexpected token"
    (by decide) (by rfl)

/-- C9 counterexample: the claim says every processed script receives a report
entry, including a "no change" entry for scripts whose text is unchanged.  The
code skips unchanged scripts entirely (the `continue` at line 119 adds nothing
to `txt`): a batch consisting of one processed-but-unchanged script yields an
empty report (and hence no report file at all, per line 135). -/
theorem c9_counterexample :
    isTarget plainScript = true ∧
    convert plainScript [plainScript] = Except.ok plainScript.code ∧
    (rewriteImports [Server.mk "home" [plainScript]]).2 = "" ∧
    writesReport [Server.mk "home" [plainScript]] = false := by
  refine ⟨by decide, by rfl, by rfl, by rfl⟩

/-- C9 (amended): the consolidated report contains one entry per changed script
("Changed import statements in …") and one per failed script ("Failed to
convert …, reason: …"); a script whose text is unchanged contributes no entry
at all, so an all-unchanged batch produces an empty report and no report file. -/
theorem c9_amended_report (server : Server) (xs ys : List Script) (u : Script)
    (hsplit : server.scripts.filter isTarget = xs ++ u :: ys)
    (hu : convert u server.scripts = Except.ok u.code) :
    (rewriteImportsServer server).2 =
      joinAll (xs.map (entryFor server.scripts server.hostname)) ++
      joinAll (ys.map (entryFor server.scripts server.hostname)) := by
  unfold rewriteImportsServer
  simp only
  rw [hsplit, foldl_stepScript]
  rw [List.map_append, List.map_cons, joinAll_append]
  have hu' : entryFor server.scripts server.hostname u = "" := by
    simp [entryFor, hu]
  simp [joinAll, hu', String.empty_append, String.append_assoc]

/-- Witness for the amended C9: a batch with one unchanged script and one changed
script: the unchanged script contributes no entry, the changed one does. -/
theorem c9_amended_report_witness :
    ((Server.mk "home" [plainScript, mainScript, xFile]).scripts.filter isTarget =
      [] ++ plainScript :: [mainScript, xFile]) ∧
    convert plainScript (Server.mk "home" [plainScript, mainScript, xFile]).scripts =
      Except.ok plainScript.code ∧
    (rewriteImportsServer (Server.mk "home" [plainScript, mainScript, xFile])).2 =
      joinAll (([] : List Script).map
        (entryFor (Server.mk "home" [plainScript, mainScript, xFile]).scripts "home")) ++
      joinAll ([mainScript, xFile].map
        (entryFor (Server.mk "home" [plainScript, mainScript, xFile]).scripts "home")) := by
  refine ⟨by decide, by rfl, ?_⟩
  exact c9_amended_report (Server.mk "home" [plainScript, mainScript, xFile]) []
    [mainScript, xFile] plainScript (by decide) (by rfl)

/-- C10: `rewriteImports` attempts conversion only on scripts whose filename ends
with `.js` or `.ns`.  A script with any other extension is returned unchanged at
its position in the server's script list, is excluded from the filtered target
list, and the whole report is built from the filtered list alone, so no report
entry is produced for it. -/
theorem c10_non_script_untouched (server : Server) (i : Nat) (hi : i < server.scripts.length)
    (h1 : strEndsWith (server.scripts[i]).filename ".js" = false)
    (h2 : strEndsWith (server.scripts[i]).filename ".ns" = false) :
    ((rewriteImportsServer server).1.scripts)[i]? = some (server.scripts[i]) ∧
    server.scripts[i] ∉ server.scripts.filter isTarget ∧
    (rewriteImportsServer server).2 =
      joinAll ((server.scripts.filter isTarget).map (entryFor server.scripts server.hostname)) := by
  have hnt : isTarget (server.scripts[i]) = false := by
    simp [isTarget, h1, h2]
  refine ⟨?_, ?_, ?_⟩
  · unfold rewriteImportsServer
    simp only
    rw [List.getElem?_append_left (by simpa using hi)]
    rw [List.getElem?_map]
    rw [List.getElem?_eq_getElem hi]
    simp [updScript, hnt]
  · intro hmem
    have hm := List.mem_filter.mp hmem
    rw [hnt] at hm
    exact Bool.noConfusion hm.2
  · unfold rewriteImportsServer
    simp only
    rw [foldl_stepScript]
    simp [String.empty_append]

/-- Witness for C10: a `.txt` file in a batch together with a changed script is
returned unchanged in place and contributes no report entry. -/
theorem c10_non_script_untouched_witness :
    (0 < (Server.mk "home" [noteFile, mainScript, xFile]).scripts.length) ∧
    strEndsWith noteFile.filename ".js" = false ∧
    strEndsWith noteFile.filename ".ns" = false ∧
    ((rewriteImportsServer (Server.mk "home" [noteFile, mainScript, xFile])).1.scripts)[0]? =
      some noteFile ∧
    noteFile ∉ (Server.mk "home" [noteFile, mainScript, xFile]).scripts.filter isTarget := by
  have h := c10_non_script_untouched (Server.mk "home" [noteFile, mainScript, xFile]) 0
    (by decide) (by decide) (by decide)
  exact ⟨by decide, by decide, by decide, h.1, h.2.1⟩

end RewriteImports
